import Mathlib

/-!
Shallow embedding of `src/download.py` (FaceForensics++ download script) and
verification of its specification claims.

The script has two parts: a catalog resolver inside `main` (expanding a JSON
manifest of filename-stem pairs into download jobs, with skip rules for
unsupported dataset/asset-type combinations) and a file fetcher
(`download_file`, `download_files`, `reporthook`).  Each Lean definition
below names the Python lines it embeds.
-/

namespace Download

/-- Python's substring operator `sub in s` on lists of characters:
`sub` occurs contiguously in `l`. -/
def listInfixOf (sub l : List Char) : Bool :=
  sub.isPrefixOf l ||
    match l with
    | [] => false
    | _ :: t => listInfixOf sub t

/-- Python's `sub in s` for strings, via the character lists. -/
def pyIn (sub s : String) : Bool :=
  listInfixOf sub.data s.data

/-- `DATASETS` dict, `download.py` lines 23-34: dataset name to remote sub-path. -/
def DATASETS : List (String × String) :=
  [("original_youtube_videos", "misc/downloaded_youtube_videos.zip"),
   ("original_youtube_videos_info", "misc/downloaded_youtube_videos_info.zip"),
   ("original", "original_sequences/youtube"),
   ("DeepFakeDetection_original", "original_sequences/actors"),
   ("Deepfakes", "manipulated_sequences/Deepfakes"),
   ("DeepFakeDetection", "manipulated_sequences/DeepFakeDetection"),
   ("Face2Face", "manipulated_sequences/Face2Face"),
   ("FaceShifter", "manipulated_sequences/FaceShifter"),
   ("FaceSwap", "manipulated_sequences/FaceSwap"),
   ("NeuralTextures", "manipulated_sequences/NeuralTextures")]

/-- `ALL_DATASETS`, lines 35-37. -/
def ALL_DATASETS : List String :=
  ["original", "DeepFakeDetection_original", "Deepfakes", "DeepFakeDetection",
   "Face2Face", "FaceShifter", "FaceSwap", "NeuralTextures"]

/-- `DEEPFAKES_MODEL_NAMES`, line 20. -/
def DEEPFAKES_MODEL_NAMES : List String :=
  ["decoder_A.h5", "decoder_B.h5", "encoder.h5"]

/-- Manifest expansion for the generic (manipulated) branch, lines 160-163:
`filelist` collects the underscore-joined pairs and, when the requested type
is not `models`, appends the underscore-joined reversed pairs (`pair[::-1]`)
of all members of `file_pairs` — all original-order names first, then all
reversed-order names. -/
def build_filelist (file_pairs : List (List String)) (c_type : String) : List String :=
  let filelist := file_pairs.map fun pair => String.intercalate "_" pair
  if c_type ≠ "models" then
    filelist ++ file_pairs.map fun pair => String.intercalate "_" pair.reverse
  else
    filelist

/-- `num_videos` truncation, lines 166-168: applied only when the argument is
present and strictly positive. -/
def apply_num_videos (num_videos : Option Int) (filelist : List String) : List String :=
  match num_videos with
  | none => filelist
  | some n => if n > 0 then filelist.take n.toNat else filelist

/-- Outcome of the per-type dispatch in `main`: either a list of filenames to
download (for `models`, the list of model folders, each of which receives the
three `DEEPFAKES_MODEL_NAMES` files), or a skip with the printed message, or
nothing (no branch taken). -/
inductive TypeOutcome where
  | jobs (files : List String)
  | skip (msg : String)
  | nothing
deriving DecidableEq, Repr

/-- The per-type dispatch of `main`, lines 174-206, applied to the resolved
`filelist`:
* `videos` (174-178): append `.mp4` to every name and download;
* `masks` (180-193): skip when `'original' in dataset` (184-186) or
  `'FaceShifter' in dataset` (188-190), else append `.mp4` and download;
* `models` (195-206): skip unless the dataset is exactly `Deepfakes`, else
  the names are used as model folders, without any suffix. -/
def dispatch_type (dataset c_type : String) (filelist : List String) : TypeOutcome :=
  if c_type = "videos" then
    .jobs (filelist.map fun filename => filename ++ ".mp4")
  else if c_type = "masks" then
    if pyIn "original" dataset then .skip "Skipping masks for original data."
    else if pyIn "FaceShifter" dataset then .skip "Masks not available for FaceShifter."
    else .jobs (filelist.map fun filename => filename ++ ".mp4")
  else if c_type = "models" then
    if dataset ≠ "Deepfakes" then .skip "Models only available for Deepfakes."
    else .jobs filelist
  else
    .nothing

/-- Download jobs emitted by a `TypeOutcome`: a skip (or no branch) emits none. -/
def TypeOutcome.jobsOf : TypeOutcome → List String
  | .jobs files => files
  | .skip _ => []
  | .nothing => []

/-! ## The file fetcher, `download_file` (lines 94-112)

Two complementary models.  `download_file_trace` is an operational model of
one call: the network delivers the file as a sequence of blocks and may fail
after any number of them; the trace records every filesystem state observable
at the destination path and at the temporary file during the call.
`download_file_net` is a functional summary over a store of existing files and
a network oracle, recording how many network requests the call issues and
what it logs. -/

/-- Observable filesystem state during a `download_file` call: the content (if
any) at the destination path `out_file`, and at the `NamedTemporaryFile`
path. -/
structure FSView where
  out_file : Option (List Nat)
  tmp_file : Option (List Nat)
deriving DecidableEq, Repr

/-- Operational trace of `download_file url out_file` (lines 94-112).
`initOut` is the content initially at `out_file` (line 96 `os.path.isfile`);
`blocks` is the block sequence the server would deliver; `failAfter = some j`
means the transfer (or the final rename) raises after `j` blocks were written
to the temporary file, `none` means full success.  States in order:
* the initial state;
* if `out_file` exists: nothing more happens (line 112 prints a skip);
* else one state per prefix of blocks written into the temporary file created
  at line 97 (`urlretrieve` writes into `tmp_file.name`, lines 103/105);
* on success, `os.rename(tmp_file.name, out_file)` (line 107) moves the
  complete content to `out_file`;
* on failure, `os.unlink(tmp_file.name)` (line 109) removes the temporary
  file and the `RuntimeError` (line 110) propagates, leaving nothing. -/
def download_file_trace (initOut : Option (List Nat)) (blocks : List (List Nat))
    (failAfter : Option Nat) : List FSView :=
  match initOut with
  | some c => [⟨some c, none⟩]
  | none =>
      let k := match failAfter with
        | none => blocks.length
        | some j => min j blocks.length
      let mids := (List.range (k + 1)).map fun i =>
        FSView.mk none (some ((blocks.take i).flatten))
      let final : FSView := match failAfter with
        | none => ⟨some blocks.flatten, none⟩
        | some _ => ⟨none, none⟩
      (FSView.mk none none :: mids) ++ [final]

/-- Result of the functional model of `download_file`: the file store after
the call, the number of network requests issued, the lines printed, and
whether the call returned normally or raised (with the `RuntimeError`
message of line 110). -/
structure DFResult where
  files : List (String × List Nat)
  requests : Nat
  log : List String
  result : Except String Unit
deriving Repr

/-- Functional summary of `download_file url out_file` (lines 94-112) over a
store `files` of existing files and a network oracle `net` mapping a URL to
the delivered content or an error.  If `out_file` is already present (line
96), nothing is requested and the skip of line 112 is printed; otherwise one
`urlretrieve` request is issued (line 103 or 105), and on success the content
is renamed into place (line 107), while on failure the temporary file is
removed (line 109) and a `RuntimeError` is raised (line 110). -/
def download_file_net (net : String → Except String (List Nat))
    (url out_file : String) (files : List (String × List Nat)) : DFResult :=
  match files.lookup out_file with
  | some _ =>
      { files := files, requests := 0,
        log := ["Skipping existing file: " ++ out_file], result := .ok () }
  | none =>
      match net url with
      | .ok content =>
          { files := (out_file, content) :: files, requests := 1,
            log := [], result := .ok () }
      | .error e =>
          { files := files, requests := 1, log := [],
            result := .error ("Download failed: " ++ e) }

/-- SSL behaviour of the single `urlretrieve` request of `download_file`. -/
inductive SSLMode where
  | unverified
  | systemDefault
deriving DecidableEq, Repr

/-- Lines 98-105: an unverified SSL context is created at line 100, but it is
passed to `urlretrieve` only on the non-progress branch (line 105,
`context=context`); the progress branch (line 103) passes only `reporthook`,
so that request uses urllib's default certificate verification. -/
def urlretrieve_ssl_mode (report_progress : Bool) : SSLMode :=
  if report_progress then .systemDefault else .unverified

/-! ## Progress reporting, `reporthook` (lines 82-92) -/

/-- Python's true division `a / b`: raises `ZeroDivisionError` when the
divisor is zero, otherwise yields the quotient. -/
def pydiv (a b : ℚ) : Except String ℚ :=
  if b = 0 then .error "ZeroDivisionError: division by zero" else .ok (a / b)

/-- `reporthook(count, block_size, total_size)`, lines 82-92, with the global
start time and the current clock value passed explicitly.  `count = 0`
records the start time and returns (lines 83-85); otherwise the hook computes
`duration`, `progress_size`, `speed = int(progress_size / (1024 * duration))`
and `percent = int(count * block_size * 100 / total_size)` (lines 86-89) and
writes the progress line (lines 90-91).  Either true division raises
`ZeroDivisionError` when its divisor is zero, in Python's evaluation order:
the `speed` division first, then the `percent` division. -/
def reporthook (count block_size total_size : Int) (start_time now : ℚ) :
    Except String Unit :=
  if count = 0 then .ok ()
  else
    let duration := now - start_time
    let progress_size : Int := count * block_size
    match pydiv (progress_size : ℚ) (1024 * duration) with
    | .error e => .error e
    | .ok _speed =>
        match pydiv ((count * block_size * 100 : Int) : ℚ) (total_size : ℚ) with
        | .error e => .error e
        | .ok _percent => .ok ()

/-! ## The batch loop, `download_files` (lines 72-80), and `main` (lines 114-209) -/

/-- `download_files(filenames, base_url, output_path)`, lines 72-80: call
`download_file` for each filename (line 78); every exception is caught and
logged as `Error downloading <filename>: <e>` (lines 79-80), so the loop
always runs to completion over the remaining filenames. -/
def download_files_net (net : String → Except String (List Nat))
    (filenames : List String) (base_url output_path : String)
    (files : List (String × List Nat)) :
    List (String × List Nat) × List String :=
  match filenames with
  | [] => (files, [])
  | filename :: rest =>
      let r := download_file_net net (base_url ++ filename)
        (output_path ++ "/" ++ filename) files
      let entry := match r.result with
        | .ok () => r.log
        | .error e => r.log ++ ["Error downloading " ++ filename ++ ": " ++ e]
      let (files', log') := download_files_net net rest base_url output_path r.files
      (files', entry ++ log')

/-- The models branch inner loop, lines 203-206: for each manifest folder,
download the three `DEEPFAKES_MODEL_NAMES` files into that folder via
`download_files` (which swallows per-file errors). -/
def models_loop (net : String → Except String (List Nat))
    (folders : List String) (deepfakes_model_url output_path : String)
    (files : List (String × List Nat)) :
    List (String × List Nat) × List String :=
  match folders with
  | [] => (files, [])
  | folder :: rest =>
      let (files', log') := download_files_net net DEEPFAKES_MODEL_NAMES
        (deepfakes_model_url ++ folder ++ "/") (output_path ++ "/" ++ folder) files
      let (files'', log'') := models_loop net rest deepfakes_model_url output_path files'
      (files'', log' ++ log'')

/-- Filelist resolution, lines 152-163.  The two remote JSON documents are
passed as oracles: `filelist_doc` for `FILELIST_URL` (a list of stem pairs)
and `detection_doc` for `DEEPFEAKES_DETECTION_URL` (an object keyed by
cohort).  Dispatch is on substrings of the dataset's remote sub-path:
`DeepFakeDetection`/`actors` pick a cohort from the detection document (lines
153-155), `original` flattens the pairs (lines 156-158), and the generic
branch underscore-joins them, reversed order included unless the type is
`models` (lines 159-163). -/
def resolve_filelist (filelist_doc : Except String (List (List String)))
    (detection_doc : Except String (List (String × List String)))
    (dataset_path c_type : String) : Except String (List String) :=
  if pyIn "DeepFakeDetection" dataset_path || pyIn "actors" dataset_path then
    match detection_doc with
    | .error e => .error e
    | .ok filepaths =>
        let key := if pyIn "actors" dataset_path then "actors" else "DeepFakesDetection"
        match filepaths.lookup key with
        | some l => .ok l
        | none => .error ("KeyError: " ++ key)
  else if pyIn "original" dataset_path then
    match filelist_doc with
    | .error e => .error e
    | .ok file_pairs => .ok file_pairs.flatten
  else
    match filelist_doc with
    | .error e => .error e
    | .ok file_pairs => .ok (build_filelist file_pairs c_type)

/-- Outcome of one iteration of the dataset loop of `main`: the loop body
either finishes this dataset (normally or after a caught, logged error), or
raises an exception that propagates out of `main`. -/
inductive StepOutcome where
  | continued (log : List String)
  | raised (log : List String) (err : String)
deriving DecidableEq, Repr

/-- `true` iff the loop body finished this dataset without propagating. -/
def StepOutcome.isContinued : StepOutcome → Bool
  | .continued _ => true
  | .raised _ _ => false

/-- One iteration of the dataset loop of `main`, lines 133-209.  The
`original_youtube_videos` special case (lines 137-146) calls `download_file`
OUTSIDE the `try` that only begins at line 152, so an error raised there
propagates out of `main` and aborts the process.  The regular path (lines
148-207) is wrapped by that `try` and its `except` (lines 208-209), which
prints `Error processing dataset <dataset>: <e>` and moves on; the per-file
loops inside it additionally swallow per-file errors (lines 79-80). -/
def process_dataset (net : String → Except String (List Nat))
    (filelist_doc : Except String (List (List String)))
    (detection_doc : Except String (List (String × List String)))
    (dataset c_type c_compression : String) (num_videos : Option Int)
    (base_url output_path : String)
    (files : List (String × List Nat)) :
    List (String × List Nat) × StepOutcome :=
  let dataset_path := (DATASETS.lookup dataset).getD ""
  if pyIn "original_youtube_videos" dataset then
    let suffix := if pyIn "info" dataset_path then "info" else ""
    let r := download_file_net net (base_url ++ "/" ++ dataset_path)
      (output_path ++ "/downloaded_videos" ++ suffix ++ ".zip") files
    match r.result with
    | .ok () => (r.files, .continued r.log)
    | .error e => (r.files, .raised r.log e)
  else
    match resolve_filelist filelist_doc detection_doc dataset_path c_type with
    | .error e =>
        (files, .continued ["Error processing dataset " ++ dataset ++ ": " ++ e])
    | .ok filelist =>
        let filelist := apply_num_videos num_videos filelist
        match dispatch_type dataset c_type filelist with
        | .skip msg => (files, .continued [msg])
        | .nothing => (files, .continued [])
        | .jobs jobs =>
            if c_type = "videos" then
              let url := base_url ++ dataset_path ++ "/" ++ c_compression ++ "/" ++ c_type ++ "/"
              let (files', log) := download_files_net net jobs url
                (output_path ++ "/" ++ dataset_path ++ "/" ++ c_compression ++ "/" ++ c_type) files
              (files', .continued log)
            else if c_type = "masks" then
              let url := base_url ++ dataset_path ++ "/masks/videos/"
              let (files', log) := download_files_net net jobs url
                (output_path ++ "/" ++ dataset_path ++ "/videos") files
              (files', .continued log)
            else
              let url := base_url ++ "manipulated_sequences/Deepfakes/models/"
              let (files', log) := models_loop net jobs url
                (output_path ++ "/" ++ dataset_path ++ "/" ++ c_type) files
              (files', .continued log)

/-- Outcome of the whole dataset loop: either the run reaches the end of the
dataset list, or an uncaught exception aborts it. -/
inductive RunOutcome where
  | completed (log : List String)
  | aborted (log : List String) (err : String)
deriving DecidableEq, Repr

/-- `true` iff the run processed every dataset. -/
def RunOutcome.isCompleted : RunOutcome → Bool
  | .completed _ => true
  | .aborted _ _ => false

/-- The dataset loop of `main`, lines 133-209, over the selected dataset
list: iterate `process_dataset`; an iteration that raises aborts the whole
run, a continued iteration passes the updated file store to the next. -/
def run_datasets (net : String → Except String (List Nat))
    (filelist_doc : Except String (List (List String)))
    (detection_doc : Except String (List (String × List String)))
    (datasets : List String) (c_type c_compression : String)
    (num_videos : Option Int) (base_url output_path : String)
    (files : List (String × List Nat)) :
    List (String × List Nat) × RunOutcome :=
  match datasets with
  | [] => (files, .completed [])
  | d :: rest =>
      let r := process_dataset net filelist_doc detection_doc d
        c_type c_compression num_videos base_url output_path files
      match r.2 with
      | .raised log e => (r.1, .aborted log e)
      | .continued log =>
          let rr := run_datasets net filelist_doc detection_doc rest
            c_type c_compression num_videos base_url output_path r.1
          match rr.2 with
          | .completed log' => (rr.1, .completed (log ++ log'))
          | .aborted log' e => (rr.1, .aborted (log ++ log') e)

/-! ## Claim theorems -/

/-- C2 counterexample: for the manifest `[["a","b"],["c","d"]]` and
asset_type `videos`, the resolver does NOT yield the claimed interleaved
order `["a_b.mp4","b_a.mp4","c_d.mp4","d_c.mp4"]`: lines 160-163 emit all
original-order names first and append all reversed-order names after them. -/
theorem videos_expansion_claimed_order_false :
    dispatch_type "Deepfakes" "videos" (build_filelist [["a","b"],["c","d"]] "videos")
      ≠ .jobs ["a_b.mp4", "b_a.mp4", "c_d.mp4", "d_c.mp4"] := by decide

/-- C2 (amended): for the manifest `[["a","b"],["c","d"]]` and asset_type
`videos`, the non-model expansion yields exactly
`["a_b.mp4","c_d.mp4","b_a.mp4","d_c.mp4"]`: all original-order
underscore-joined pairs first, then all reversed-order ones, each with the
`.mp4` suffix appended. -/
theorem videos_expansion_order :
    dispatch_type "Deepfakes" "videos" (build_filelist [["a","b"],["c","d"]] "videos")
      = .jobs ["a_b.mp4", "c_d.mp4", "b_a.mp4", "d_c.mp4"] := by decide

/-- C4 counterexample: with progress reporting enabled, the `urlretrieve`
request issued by `download_file` does not use the certificate-verification
bypass — line 103 passes only the `reporthook`, not the unverified context. -/
theorem ssl_bypass_not_universal :
    urlretrieve_ssl_mode true ≠ SSLMode.unverified := by decide

/-- C4 (amended): `download_file` uses the certificate-verification bypass
only on the non-progress path (line 105); with progress reporting enabled
(line 103) the request uses urllib's default certificate verification. -/
theorem ssl_bypass_nonprogress_only :
    urlretrieve_ssl_mode false = SSLMode.unverified ∧
    urlretrieve_ssl_mode true = SSLMode.systemDefault := by decide

/-- C6: the unsupported combinations — masks for `original`, masks for
`FaceShifter`, and models for any dataset other than `Deepfakes` — are each
skipped with their printed message and emit zero download jobs, whatever the
resolved filelist is. -/
theorem unsupported_combinations_skip (filelist : List String) (d : String)
    (hd : d ≠ "Deepfakes") :
    (dispatch_type "original" "masks" filelist
        = .skip "Skipping masks for original data." ∧
      (dispatch_type "original" "masks" filelist).jobsOf = []) ∧
    (dispatch_type "FaceShifter" "masks" filelist
        = .skip "Masks not available for FaceShifter." ∧
      (dispatch_type "FaceShifter" "masks" filelist).jobsOf = []) ∧
    (dispatch_type d "models" filelist
        = .skip "Models only available for Deepfakes." ∧
      (dispatch_type d "models" filelist).jobsOf = []) := by
  have hm : dispatch_type d "models" filelist
      = .skip "Models only available for Deepfakes." := by
    unfold dispatch_type
    rw [if_neg (by decide), if_neg (by decide), if_pos rfl, if_pos hd]
  exact ⟨⟨rfl, rfl⟩, ⟨rfl, rfl⟩, hm, by rw [hm]; rfl⟩

/-- C6 witness: concrete instance at filelist `["000_003"]` and dataset
`original` (which is not `Deepfakes`). -/
theorem unsupported_combinations_skip_witness :
    (dispatch_type "original" "masks" ["000_003"]
        = .skip "Skipping masks for original data." ∧
      (dispatch_type "original" "masks" ["000_003"]).jobsOf = []) ∧
    (dispatch_type "FaceShifter" "masks" ["000_003"]
        = .skip "Masks not available for FaceShifter." ∧
      (dispatch_type "FaceShifter" "masks" ["000_003"]).jobsOf = []) ∧
    (dispatch_type "original" "models" ["000_003"]
        = .skip "Models only available for Deepfakes." ∧
      (dispatch_type "original" "models" ["000_003"]).jobsOf = []) :=
  unsupported_combinations_skip ["000_003"] "original" (by decide)

/-- C7: for the manifest `[["a","b"],["c","d"]]` and asset_type `models`, the
resolver yields exactly `["a_b","c_d"]` — original-order joins only (lines
160-163 skip the reversed append for `models`), and the models branch (lines
195-206) uses the names as folders with no filename suffix appended. -/
theorem models_expansion :
    build_filelist [["a","b"],["c","d"]] "models" = ["a_b", "c_d"] ∧
    dispatch_type "Deepfakes" "models" (build_filelist [["a","b"],["c","d"]] "models")
      = .jobs ["a_b", "c_d"] := by decide

/-- C8: the `num_videos` limit (lines 166-168) leaves the list unchanged when
absent or non-positive, truncates to the first `n` entries when `n > 0`, and
in particular `num_videos = 1` truncates any list to its first element. -/
theorem num_videos_truncation (filelist : List String) (n : Int) :
    apply_num_videos none filelist = filelist ∧
    (n ≤ 0 → apply_num_videos (some n) filelist = filelist) ∧
    (0 < n → apply_num_videos (some n) filelist = filelist.take n.toNat) ∧
    apply_num_videos (some 1) filelist = filelist.take 1 := by
  refine ⟨rfl, ?_, ?_, rfl⟩
  · intro hn
    simp only [apply_num_videos]
    rw [if_neg (not_lt.mpr hn)]
  · intro hn
    simp only [apply_num_videos]
    rw [if_pos hn]

/-- C8 witness: concrete instances of both hypothesised cases, at limit `0`
(no truncation) and limit `2` (truncation to the first two entries). -/
theorem num_videos_truncation_witness :
    apply_num_videos (some 0) ["a", "b"] = ["a", "b"] ∧
    apply_num_videos (some 2) ["a", "b", "c"] = ["a", "b", "c"].take (2 : Int).toNat :=
  ⟨(num_videos_truncation ["a", "b"] 0).2.1 (by decide),
   (num_videos_truncation ["a", "b", "c"] 2).2.2.1 (by decide)⟩

/-- C10: because the mask-skip test at line 184 is the substring check
`'original' in dataset`, asset_type `masks` for the dataset
`DeepFakeDetection_original` is also skipped with the "original" message and
emits zero download jobs. -/
theorem dfd_original_masks_skipped (filelist : List String) :
    dispatch_type "DeepFakeDetection_original" "masks" filelist
      = .skip "Skipping masks for original data." ∧
    (dispatch_type "DeepFakeDetection_original" "masks" filelist).jobsOf = [] :=
  ⟨rfl, rfl⟩

/-- C3: if the destination already exists, `download_file` issues zero
network requests, leaves the store unchanged and prints the skip message
(lines 96, 111-112); and calling it twice on the same `(url, out_file)` with
the first call succeeding issues exactly one request in total — the second
call short-circuits on the existence check and leaves the file unchanged. -/
theorem download_file_skip_idempotent
    (net : String → Except String (List Nat)) (url out_file : String)
    (files : List (String × List Nat)) (content : List Nat) :
    (∀ c, files.lookup out_file = some c →
        download_file_net net url out_file files =
          { files := files, requests := 0,
            log := ["Skipping existing file: " ++ out_file], result := .ok () }) ∧
    (files.lookup out_file = none → net url = .ok content →
        (download_file_net net url out_file files).requests = 1 ∧
        (download_file_net net url out_file files).result = .ok () ∧
        download_file_net net url out_file
            (download_file_net net url out_file files).files =
          { files := (download_file_net net url out_file files).files,
            requests := 0,
            log := ["Skipping existing file: " ++ out_file], result := .ok () }) := by
  constructor
  · intro c hc
    simp [download_file_net, hc]
  · intro hnone hnet
    simp [download_file_net, hnone, hnet, List.lookup]

/-- C3 witness: concrete run with an always-succeeding network; one request
on the first call, then a request-free skip that leaves the store as is. -/
theorem download_file_skip_idempotent_witness :
    (download_file_net (fun _ => .ok [7]) "u" "f" []).requests = 1 ∧
    (download_file_net (fun _ => .ok [7]) "u" "f" []).result = .ok () ∧
    download_file_net (fun _ => .ok [7]) "u" "f"
        (download_file_net (fun _ => .ok [7]) "u" "f" []).files =
      { files := (download_file_net (fun _ => .ok [7]) "u" "f" []).files,
        requests := 0,
        log := ["Skipping existing file: " ++ "f"], result := .ok () } :=
  (download_file_skip_idempotent (fun _ => .ok [7]) "u" "f" [] [7]).2 rfl rfl

/-- C9 counterexample: the progress callback is not total — at
`count = 1, block_size = 1, total_size = 0` (a server reporting
`Content-Length: 0`) the `percent` computation at line 89 divides by zero
and `reporthook` raises `ZeroDivisionError`, which would propagate out of
`urlretrieve` and fail the download. -/
theorem reporthook_raises_on_zero_total :
    reporthook 1 1 0 0 1 = .error "ZeroDivisionError: division by zero" := by
  norm_num [reporthook, pydiv]

/-- C9 (amended): `reporthook` completes without raising whenever
`count = 0`, or the reported total size is nonzero and the elapsed time since
the recorded start is nonzero; only the two zero-divisor cases (line 88 with
zero duration, line 89 with zero total size) can raise. -/
theorem reporthook_no_raise (count block_size total_size : Int)
    (start_time now : ℚ)
    (h : count = 0 ∨ (total_size ≠ 0 ∧ now ≠ start_time)) :
    reporthook count block_size total_size start_time now = .ok () := by
  rcases h with rfl | ⟨hts, hnow⟩
  · rfl
  · unfold reporthook
    rcases eq_or_ne count 0 with hc | hc
    · rw [if_pos hc]
    · rw [if_neg hc]
      have h1 : (1024 : ℚ) * (now - start_time) ≠ 0 :=
        mul_ne_zero (by norm_num) (sub_ne_zero.mpr hnow)
      have h2 : ((total_size : ℚ)) ≠ 0 := Int.cast_ne_zero.mpr hts
      simp [pydiv, h1, h2]

/-- C9 witness: a concrete nonzero total size and nonzero elapsed time. -/
theorem reporthook_no_raise_witness :
    reporthook 2 3 7 0 1 = .ok () :=
  reporthook_no_raise 2 3 7 0 1 (Or.inr ⟨by decide, one_ne_zero⟩)

/-- C1: starting from an absent destination, every state observable during a
`download_file` call shows `out_file` either absent or holding the complete
content (the rename at line 107 is the only write to the final path and
happens only after the full transfer); on success the final state holds the
complete content, and on a download error the final state has neither the
destination file nor the temporary file (line 109 unlinks it before the
`RuntimeError` of line 110 propagates). -/
theorem download_file_atomic (blocks : List (List Nat)) (failAfter : Option Nat) :
    (∀ v ∈ download_file_trace none blocks failAfter,
        v.out_file = none ∨ v.out_file = some blocks.flatten) ∧
    (failAfter = none →
        (download_file_trace none blocks failAfter).getLast? =
          some ⟨some blocks.flatten, none⟩) ∧
    (∀ j, failAfter = some j →
        (download_file_trace none blocks failAfter).getLast? = some ⟨none, none⟩) := by
  refine ⟨?_, ?_, ?_⟩
  · intro v hv
    cases failAfter with
    | none =>
        simp only [download_file_trace, List.mem_append, List.mem_cons, List.mem_map,
          List.mem_range, List.mem_singleton, List.not_mem_nil, or_false] at hv
        rcases hv with (rfl | ⟨i, -, rfl⟩) | rfl
        · exact Or.inl rfl
        · exact Or.inl rfl
        · exact Or.inr rfl
    | some j0 =>
        simp only [download_file_trace, List.mem_append, List.mem_cons, List.mem_map,
          List.mem_range, List.mem_singleton, List.not_mem_nil, or_false] at hv
        rcases hv with (rfl | ⟨i, -, rfl⟩) | rfl
        · exact Or.inl rfl
        · exact Or.inl rfl
        · exact Or.inl rfl
  · rintro rfl
    show ((FSView.mk none none :: _) ++ [FSView.mk (some blocks.flatten) none]).getLast?
        = some ⟨some blocks.flatten, none⟩
    rw [List.getLast?_append_cons]
    rfl
  · rintro j rfl
    show ((FSView.mk none none :: _) ++ [FSView.mk none none]).getLast?
        = some ⟨none, none⟩
    rw [List.getLast?_append_cons]
    rfl

/-- C1 witness: the mid-transfer failure trace for a two-block download
failing after the first block; the first state shows nothing at the
destination path. -/
theorem download_file_atomic_witness :
    (FSView.mk none none).out_file = none ∨
    (FSView.mk none none).out_file = some ([[1], [2]] : List (List Nat)).flatten :=
  (download_file_atomic [[1], [2]] (some 1)).1 ⟨none, none⟩ (by decide)

/-- Helper for C5: any dataset other than the two `original_youtube_videos`
entries is processed entirely inside the `try`/`except` of lines 152 and
208-209 (with per-file errors additionally swallowed at lines 79-80), so its
loop iteration always continues. -/
theorem process_dataset_continued_of_not_youtube
    (net : String → Except String (List Nat))
    (filelist_doc : Except String (List (List String)))
    (detection_doc : Except String (List (String × List String)))
    (dataset c_type c_compression : String) (num_videos : Option Int)
    (base_url output_path : String) (files : List (String × List Nat))
    (h : pyIn "original_youtube_videos" dataset = false) :
    ((process_dataset net filelist_doc detection_doc dataset c_type c_compression
        num_videos base_url output_path files).2).isContinued = true := by
  unfold process_dataset
  simp only [h, Bool.false_eq_true, if_false]
  repeat' split
  all_goals rfl

/-- C5 counterexample: a download error in the special-cased
`original_youtube_videos` zip download aborts the run — the `download_file`
call at lines 141-145 sits outside the `try` that only begins at line 152,
so its `RuntimeError` propagates out of `main` and the remaining datasets
(here `Deepfakes`) are never processed. -/
theorem run_aborts_on_youtube_error :
    (run_datasets (fun _ => .error "connection reset") (.ok []) (.ok [])
        ["original_youtube_videos", "Deepfakes"] "videos" "raw" none
        "http://base/v3/" "out" []).2
      = .aborted [] "Download failed: connection reset" := by rfl

/-- C5 (amended): for every dataset selection that avoids the two
`original_youtube_videos` special cases, every download or manifest error is
caught and logged (lines 79-80 per file, lines 208-209 per dataset) and the
run continues to completion over all datasets; only an error in the
special-cased `original_youtube_videos` zip download can abort the process. -/
theorem run_continues_without_youtube
    (net : String → Except String (List Nat))
    (filelist_doc : Except String (List (List String)))
    (detection_doc : Except String (List (String × List String)))
    (datasets : List String) (c_type c_compression : String)
    (num_videos : Option Int) (base_url output_path : String)
    (files : List (String × List Nat))
    (h : ∀ d ∈ datasets, pyIn "original_youtube_videos" d = false) :
    ((run_datasets net filelist_doc detection_doc datasets c_type c_compression
        num_videos base_url output_path files).2).isCompleted = true := by
  revert h
  induction datasets generalizing files with
  | nil => intro h; rfl
  | cons d rest ih =>
      intro h
      have hd : pyIn "original_youtube_videos" d = false := h d (List.mem_cons_self d rest)
      have hcont := process_dataset_continued_of_not_youtube net filelist_doc detection_doc
        d c_type c_compression num_videos base_url output_path files hd
      unfold run_datasets
      rcases hp : process_dataset net filelist_doc detection_doc d c_type c_compression
          num_videos base_url output_path files with ⟨files1, out⟩
      rw [hp] at hcont
      simp only [hp]
      cases out with
      | raised log e => simp [StepOutcome.isContinued] at hcont
      | continued log =>
          have hrec := ih files1 (fun d' hd' => h d' (List.mem_cons_of_mem d hd'))
          rcases hr : run_datasets net filelist_doc detection_doc rest c_type c_compression
              num_videos base_url output_path files1 with ⟨files2, rout⟩
          rw [hr] at hrec
          simp only [hr]
          cases rout with
          | completed log2 => rfl
          | aborted log2 e => simp [RunOutcome.isCompleted] at hrec

/-- C5 witness: with a network that fails every request and the full
`ALL_DATASETS` selection (which contains no `original_youtube_videos`
entry), the run still completes. -/
theorem run_continues_without_youtube_witness :
    ((run_datasets (fun _ => .error "boom") (.ok [["a", "b"]]) (.ok [])
        ALL_DATASETS "videos" "raw" none "http://b/v3/" "out" []).2).isCompleted
      = true :=
  run_continues_without_youtube (fun _ => .error "boom") (.ok [["a", "b"]]) (.ok [])
    ALL_DATASETS "videos" "raw" none "http://b/v3/" "out" [] (by decide)

end Download
